import Mathlib

/-!
Shallow embedding of the dependency-resolution and repository-management
modules of the Nsfr750/pack repository (src/struttura/dependencies.py and
src/struttura/repository.py), together with theorems settling the claims
about them.  Requirement strings are modelled as lists of characters;
Python regular expressions are embedded as the matching functions they
denote on the inputs the code feeds them (both `VERSION_SPECIFIER_RE` and
`EXTRA_RE` are anchored with `^` and no MULTILINE flag, so `re.search`
with them can only match at position 0 of the string).
-/

namespace Pack

/-- Characters matched by Python `\s` and stripped by `str.strip()`
(ASCII range). -/
def isPySpace (c : Char) : Bool :=
  c = ' ' || c = '\t' || c = '\n' || c = '\r' || c = '\x0b' || c = '\x0c'

/-- Python `str.strip()`: drop leading and trailing whitespace. -/
def pyStrip (s : List Char) : List Char :=
  ((s.dropWhile isPySpace).reverse.dropWhile isPySpace).reverse

/-- Version of `pyStrip` acting on a `String`. -/
def pyStripStr (s : String) : String :=
  String.mk (pyStrip s.toList)

/-- The `PackageSpec` NamedTuple of src/struttura/dependencies.py. -/
structure PackageSpec where
  name : String
  specifiers : List (String × String)
  extras : List String
deriving Repr, DecidableEq

/-- Embedding of `PackageSpec.__str__` (dependencies.py lines 20-27): name, then
`[extras]` when extras is non-empty, then the comma-joined specifiers. -/
def PackageSpec.toStr (p : PackageSpec) : String :=
  p.name
    ++ (if p.extras ≠ [] then "[" ++ String.intercalate "," p.extras ++ "]" else "")
    ++ (if p.specifiers ≠ [] then
          String.intercalate "," (p.specifiers.map (fun q => q.1 ++ q.2))
        else "")

/-- The alternatives of `VERSION_SPECIFIER_RE`, in the order the regex
lists them (Python alternation tries them left to right). -/
def versionOps : List String := ["~=", "==", "!=", "<=", ">=", "<", ">", "===", "!=="]

/-- Characters allowed in the version group `[^,;\s]+`. -/
def isVerChar (c : Char) : Bool :=
  !(c = ',' || c = ';' || isPySpace c)

/-- Attempt one alternative of `VERSION_SPECIFIER_RE` at the start of the
string: the operator literal, then `\s*`, then a non-empty maximal run of
`[^,;\s]` characters.  Returns (operator, version, rest after the match).
Backtracking `\s*` cannot help: a shorter whitespace run leaves a
whitespace character where `[^,;\s]+` must match. -/
def tryOp (op : String) (s : List Char) : Option (String × String × List Char) :=
  if op.toList.isPrefixOf s then
    let afterOp := s.drop op.length
    let afterWs := afterOp.dropWhile isPySpace
    let ver := afterWs.takeWhile isVerChar
    if ver.isEmpty then none
    else some (op, String.mk ver, afterWs.drop ver.length)
  else none

/-- Embedding of `VERSION_SPECIFIER_RE.search`: the pattern is `^`-anchored, so it can
only match at position 0; alternatives are tried in order. -/
def matchVersionSpecifier : List String → List Char → Option (String × String × List Char)
  | [], _ => none
  | op :: ops, s =>
    match tryOp op s with
    | some r => some r
    | none => matchVersionSpecifier ops s

/-- The `while True` specifier-extraction loop of `parse_requirement`
(dependencies.py lines 70-81).  Each successful match removes the matched
span from the front of the string (the match always starts at 0 because
the regex is anchored) and appends the (operator, version) pair.  Fuel
bounds the iteration; every match consumes at least two characters, so
`length + 1` fuel is never exhausted. -/
def specLoop : Nat → List Char → List (String × String) → List Char × List (String × String)
  | 0, s, acc => (s, acc)
  | n + 1, s, acc =>
    match matchVersionSpecifier versionOps s with
    | none => (s, acc)
    | some (op, ver, rest) => specLoop n rest (acc ++ [(op, ver)])

/-- Embedding of `EXTRA_RE.search` with pattern `^\s*\[(.*?)\]`: anchored at position 0;
`\s*` skips leading whitespace, then a literal `[`, then the lazy `.*?`
takes characters up to the first `]` (`.` does not match a newline).
Returns (bracket contents, rest after the `]`), which also models
`EXTRA_RE.sub(two-quote-empty, requirement, 1)` since the match starts at 0. -/
def matchExtraAt (s : List Char) : Option (String × List Char) :=
  match (s.dropWhile isPySpace) with
  | '[' :: t =>
    let inner := t.takeWhile (fun c => c != ']' && c != '\n')
    match t.drop inner.length with
    | ']' :: r => some (String.mk inner, r)
    | _ => none
  | _ => none

/-- Python `str.split(",")`: split on every comma; the empty string
splits to a single empty piece. -/
def splitCommaAux : List Char → List Char → List (List Char)
  | [], acc => [acc.reverse]
  | ',' :: t, acc => acc.reverse :: splitCommaAux t []
  | c :: t, acc => splitCommaAux t (c :: acc)

/-- The extras-extraction step of `parse_requirement` (lines 61-66):
when `EXTRA_RE` matches, split the group on commas, strip each piece and
keep the non-empty ones; the matched span is removed from the string. -/
def extrasStep (s : List Char) : List String × List Char :=
  match matchExtraAt s with
  | some (inner, rest) =>
    (((splitCommaAux inner.toList []).map (fun l => String.mk (pyStrip l))).filter
       (fun e => e != ""), rest)
  | none => ([], s)

/-- Alphanumeric as matched by `[A-Z0-9]` under `re.IGNORECASE` (ASCII). -/
def isAlnum (c : Char) : Bool :=
  ('A' ≤ c && c ≤ 'Z') || ('a' ≤ c && c ≤ 'z') || ('0' ≤ c && c ≤ '9')

/-- A character allowed in the middle of a name: `[A-Z0-9._-]`. -/
def isNameMid (c : Char) : Bool :=
  isAlnum c || c = '.' || c = '_' || c = '-'

/-- Matches the tail of the second `NAME_RE` alternative: middle
characters from `[A-Z0-9._-]*` followed by a final `[A-Z0-9]`. -/
def nameMidEnd : List Char → Bool
  | [] => false
  | [c] => isAlnum c
  | c :: rest => isNameMid c && nameMidEnd rest

/-- The body of `NAME_RE`: a single alphanumeric character, or an
alphanumeric character, middle characters, and a final alphanumeric. -/
def nameCore : List Char → Bool
  | [] => false
  | [c] => isAlnum c
  | c :: rest => isAlnum c && nameMidEnd rest

/-- Embedding of `NAME_RE.match`: the pattern is `^...$`; `$` (without MULTILINE) also
matches just before a single trailing newline. -/
def nameREMatch (s : List Char) : Bool :=
  nameCore s ||
    (match s.getLast? with
     | some c => c = '\n' && nameCore s.dropLast
     | none => false)

/-- The final name validation and construction of `parse_requirement`
(lines 83-88): strip the remainder, reject when empty or when `NAME_RE`
does not match, otherwise build the `PackageSpec`. -/
def finishName (rest : List Char) (specifiers : List (String × String))
    (extras : List String) : Except String PackageSpec :=
  if (pyStrip rest).isEmpty || !(nameREMatch (pyStrip rest)) then
    Except.error ("Invalid package name: " ++ String.mk (pyStrip rest))
  else
    Except.ok ⟨String.mk (pyStrip rest), specifiers, extras⟩

/-- Embedding of `DependencyResolver.parse_requirement` (dependencies.py lines 45-88):
strip; reject empty; extract extras via `EXTRA_RE`; repeatedly extract
version specifiers via `VERSION_SPECIFIER_RE`; validate the remainder as
the package name.  Errors are the `ValueError` messages of the source. -/
def parse_requirement (requirement : String) : Except String PackageSpec :=
  let r0 := pyStrip requirement.toList
  if r0.isEmpty then Except.error "Empty requirement string"
  else
    let er := extrasStep r0
    let sp := specLoop (er.2.length + 1) er.2 []
    finishName sp.1 sp.2 er.1

/-- The names bound at module level in src/struttura/dependencies.py:
the imports of lines 5-10 (`re`, `sys`, `subprocess`, `logging`, the
`typing` names, `Path`) plus the module-level bindings.  Neither `json`
nor `shutil` is ever imported, although lines 105/109 use `json` and
lines 204/217 use `shutil`. -/
def dependenciesModuleGlobals : List String :=
  ["re", "sys", "subprocess", "logging", "Dict", "List", "Set", "Tuple",
   "Optional", "NamedTuple", "Path", "logger", "PackageSpec", "DependencyResolver"]

/-- Whether a global name resolves in the dependencies module; an
unresolved name raises `NameError` at the point of use. -/
def dependenciesHasGlobal (n : String) : Bool :=
  dependenciesModuleGlobals.contains n

/-- The Python exceptions the embedded code can raise or handle. -/
inductive PyExc where
  | nameError (n : String)
  | calledProcessError
  | jsonDecodeError
  | valueError (msg : String)
deriving Repr, DecidableEq

/-- Rendering `str(e)` for the embedded exceptions; only the `valueError` text is
ever inspected by the code, the other renderings are abbreviated. -/
def PyExc.toStr : PyExc → String
  | .nameError n => "name " ++ n ++ " is not defined"
  | .calledProcessError => "Command returned non-zero exit status"
  | .jsonDecodeError => "Expecting value"
  | .valueError msg => msg

/-- Outcome of a completed subprocess: exit code and captured streams. -/
structure RunResult where
  returncode : Int
  stdout : String
  stderr : String
deriving Repr, DecidableEq

/-- Embedding of `subprocess.run(..., check=True)`: a non-zero exit code raises
`CalledProcessError`. -/
def runChecked (r : RunResult) : Except PyExc RunResult :=
  if r.returncode ≠ 0 then Except.error PyExc.calledProcessError else Except.ok r

/-- Embedding of `DependencyResolver.get_installed_packages` (dependencies.py lines
90-111).  `pipList` is the outcome of the `pip list --format=json`
subprocess; `jsonLoads` abstracts `json.loads` producing the name/version
pairs of the JSON array (error = `JSONDecodeError`).  Referencing the
name `json` — both at `json.loads` in the `try` body and at
`json.JSONDecodeError` in the `except` clause tuple — first resolves the
module global; when it does not resolve, `NameError` is raised at that
point and propagates out of the function. -/
def get_installed_packages (pipList : RunResult)
    (jsonLoads : String → Except Unit (List (String × String))) :
    Except PyExc (List (String × String)) :=
  let tryBody : Except PyExc (List (String × String)) :=
    match runChecked pipList with
    | Except.error e => Except.error e
    | Except.ok r =>
      if dependenciesHasGlobal "json" then
        match jsonLoads r.stdout with
        | Except.error _ => Except.error PyExc.jsonDecodeError
        | Except.ok pkgs => Except.ok (pkgs.map (fun p => (p.1.toLower, p.2)))
      else Except.error (PyExc.nameError "json")
  match tryBody with
  | Except.ok m => Except.ok m
  | Except.error e =>
    if dependenciesHasGlobal "json" then
      match e with
      | PyExc.calledProcessError => Except.ok []
      | PyExc.jsonDecodeError => Except.ok []
      | e => Except.error e
    else Except.error (PyExc.nameError "json")

/-- Presence on disk of the two temporary artifacts the conflict checker
creates: `temp_requirements.txt` and the `temp_venv` directory. -/
structure FsState where
  reqFileExists : Bool
  venvDirExists : Bool
deriving Repr, DecidableEq

/-- The external-world outcomes `resolve_dependencies` depends on: the
`python -m venv` call, whether that call left the directory on disk, and
the `pip install -r` call. -/
structure ResolveEnv where
  venvCreate : RunResult
  venvDirCreated : Bool
  pipInstall : RunResult
deriving Repr, DecidableEq

/-- The `except Exception` handler of `resolve_dependencies` (lines
212-218): unlink the requirements file when it exists, then — when the
venv directory exists — evaluate `shutil.rmtree(venv_dir, ...)`, which
first resolves the name `shutil`; an unresolved name raises `NameError`
from inside the handler, so the final `raise ValueError(...)` is never
reached on that path. -/
def cleanupHandler (e : PyExc) (st : FsState) :
    Except PyExc (List (String × String)) × FsState :=
  let st1 : FsState := { st with reqFileExists := false }
  if st.venvDirExists then
    if dependenciesHasGlobal "shutil" then
      (Except.error (PyExc.valueError ("Dependency resolution failed: " ++ e.toStr)),
       { st1 with venvDirExists := false })
    else
      (Except.error (PyExc.nameError "shutil"), st1)
  else
    (Except.error (PyExc.valueError ("Dependency resolution failed: " ++ e.toStr)), st1)

/-- Embedding of `DependencyResolver.resolve_dependencies` (dependencies.py lines
164-218).  `getInstalled` is the outcome of the trailing
`get_installed_packages` call.  Control flow of the source: write the
requirements file; create the venv with `check=True`; run `pip install`
(captured, no check); then `temp_req_file.unlink()` followed by
`shutil.rmtree(venv_dir, ...)` — the latter resolves the name `shutil`
before anything runs, raising `NameError` into the handler when it is
missing, which means the `returncode` test of line 206 is unreachable. -/
def resolve_dependencies (env : ResolveEnv)
    (getInstalled : Except PyExc (List (String × String))) :
    Except PyExc (List (String × String)) × FsState :=
  let st1 : FsState := { reqFileExists := true, venvDirExists := false }
  let st2 : FsState := { st1 with venvDirExists := env.venvDirCreated }
  if env.venvCreate.returncode ≠ 0 then
    cleanupHandler PyExc.calledProcessError st2
  else
    let st3 : FsState := { st2 with reqFileExists := false }
    if dependenciesHasGlobal "shutil" then
      let st4 : FsState := { st3 with venvDirExists := false }
      if env.pipInstall.returncode ≠ 0 then
        cleanupHandler
          (PyExc.valueError ("Failed to resolve dependencies: " ++ env.pipInstall.stderr)) st4
      else
        match getInstalled with
        | Except.ok m => (Except.ok m, st4)
        | Except.error e => cleanupHandler e st4
    else
      cleanupHandler (PyExc.nameError "shutil") st3

/-- The literal before the captured group of the conflict regex of
`check_conflicts` (dependencies.py line 239). -/
def conflictLit1 : List Char := "Cannot install ".toList

/-- The literal after the captured group of the conflict regex. -/
def conflictLit2 : List Char :=
  " because these package versions have conflicting dependencies".toList

/-- Match the conflict pattern at the start of `s`: the first literal, a
non-empty maximal run of non-whitespace characters (`[^\s]+` is greedy,
and no shorter run can be followed by the space the second literal
starts with), then the second literal.  Returns the captured group. -/
def matchConflictAt (s : List Char) : Option String :=
  if conflictLit1.isPrefixOf s then
    let rest := s.drop conflictLit1.length
    let pkg := rest.takeWhile (fun c => !(isPySpace c))
    if pkg.isEmpty then none
    else if conflictLit2.isPrefixOf (rest.drop pkg.length) then some (String.mk pkg)
    else none
  else none

/-- Embedding of `re.search` with the conflict pattern: try each position
left to right and return the captured package name of the leftmost match. -/
def findConflictPackage : List Char → Option String
  | [] => none
  | c :: t =>
    match matchConflictAt (c :: t) with
    | some p => some p
    | none => findConflictPackage t

/-- Embedding of `DependencyResolver.check_conflicts` (dependencies.py lines 220-244)
as a function of the outcome of `resolve_dependencies`: an `ok` value
models a resolution that returned normally, an `error msg` models a
raised `ValueError` whose `str` is `msg` — the only exception type the
`except` clause of line 232 handles. -/
def check_conflicts (resolveOutcome : Except String (List (String × String))) :
    List (String × String × String) :=
  match resolveOutcome with
  | Except.ok _ => []
  | Except.error msg =>
    match findConflictPackage msg.toList with
    | some pkg => [(pkg, "multiple", "Version conflict for " ++ pkg)]
    | none => []

/-- Composition of `check_conflicts` with the embedded `resolve_dependencies`,
tracking the filesystem state: a `ValueError` from resolution is handled
by the conflict-extraction logic, any other exception propagates. -/
def check_conflicts_run (env : ResolveEnv)
    (getInstalled : Except PyExc (List (String × String))) :
    Except PyExc (List (String × String × String)) × FsState :=
  match resolve_dependencies env getInstalled with
  | (Except.ok _, st) => (Except.ok [], st)
  | (Except.error (PyExc.valueError msg), st) =>
    (Except.ok (check_conflicts (Except.error msg)), st)
  | (Except.error e, st) => (Except.error e, st)

/-- The `PackageRepository` class of src/struttura/repository.py. -/
structure PackageRepository where
  name : String
  url : String
  username : Option String
  password : Option String
  is_default : Bool
deriving Repr, DecidableEq

/-- The in-memory `self.repositories` dict of `RepositoryManager`,
modelled as an association list in insertion order with unique keys, the
way a Python dict iterates.  `save_repositories` only writes the JSON
file and never changes this state, so it is elided. -/
abbrev RepoDict := List (String × PackageRepository)

/-- Python `name in self.repositories`. -/
def dictContains (m : RepoDict) (k : String) : Bool :=
  m.any (fun p => p.1 == k)

/-- Python `self.repositories.get(name)`. -/
def dictGet (m : RepoDict) (k : String) : Option PackageRepository :=
  (List.find? (fun p => p.1 == k) m).map (fun p => p.2)

/-- Python `self.repositories[k] = v`: replace in place when the key is
present, append otherwise. -/
def dictSet (m : RepoDict) (k : String) (v : PackageRepository) : RepoDict :=
  if dictContains m k then
    m.map (fun p => if p.1 == k then (k, v) else p)
  else m ++ [(k, v)]

/-- Python `del self.repositories[k]`. -/
def dictDelete (m : RepoDict) (k : String) : RepoDict :=
  m.filter (fun p => p.1 != k)

/-- Embedding of `RepositoryManager.add_repository` (repository.py lines 121-128):
store the repository under its name and save. -/
def add_repository (st : RepoDict) (repo : PackageRepository) : RepoDict :=
  dictSet st repo.name repo

/-- Embedding of `RepositoryManager.remove_repository` (lines 130-143): delete and
return `True` only when the name is present and is not `"pypi"`. -/
def remove_repository (st : RepoDict) (nm : String) : Bool × RepoDict :=
  if dictContains st nm && nm != "pypi" then (true, dictDelete st nm)
  else (false, st)

/-- Embedding of `RepositoryManager.get_default_repository` (lines 156-165): the
first repository in iteration order whose `is_default` flag is set,
falling back to `get_repository("pypi")`. -/
def get_default_repository (st : RepoDict) : Option PackageRepository :=
  match List.find? (fun p => p.2.is_default) st with
  | some p => some p.2
  | none => dictGet st "pypi"

/-- Embedding of `RepositoryManager.set_default_repository` (lines 175-194): reject
an absent name; otherwise clear `is_default` on every repository, then
set it on the named one, and save. -/
def set_default_repository (st : RepoDict) (nm : String) : Bool × RepoDict :=
  if !(dictContains st nm) then (false, st)
  else
    let cleared := st.map (fun p => (p.1, { p.2 with is_default := false }))
    (true, cleared.map (fun p =>
      if p.1 == nm then (p.1, { p.2 with is_default := true }) else p))

/-- Embedding of `RepositoryManager._load_repositories` (lines 87-106) composed with
`__init__`: `loaded` is the parsed configuration file (`none` when the
file is absent or any load error occurred, in which case the dict starts
empty); afterwards, when no key `"pypi"` exists, the default PyPI
repository is added via `add_repository`. -/
def initRepositories (loaded : Option RepoDict) : RepoDict :=
  let repos := match loaded with
    | some m => m
    | none => []
  if dictContains repos "pypi" then repos
  else add_repository repos ⟨"pypi", "https://pypi.org/simple", none, none, true⟩

/-! ## Helper lemmas -/

/-- The keys of a repository dict, in iteration order. -/
def repoKeys (st : RepoDict) : List String := st.map Prod.fst

theorem dictContains_iff_mem_keys (st : RepoDict) (k : String) :
    dictContains st k = true ↔ k ∈ repoKeys st := by
  simp [dictContains, repoKeys, List.any_eq_true, List.mem_map]

theorem countP_key_eq_one (st : RepoDict) (nm : String)
    (hnd : (repoKeys st).Nodup) (hmem : dictContains st nm = true) :
    st.countP (fun p => p.1 == nm) = 1 := by
  have h1 : (repoKeys st).count nm = 1 :=
    List.count_eq_one_of_mem hnd ((dictContains_iff_mem_keys st nm).mp hmem)
  rw [repoKeys, List.count_eq_countP, List.countP_map] at h1
  exact h1

theorem filter_length_add_countP (st : RepoDict) (nm : String) :
    (st.filter (fun p => p.1 != nm)).length + st.countP (fun p => p.1 == nm) =
      st.length := by
  induction st with
  | nil => rfl
  | cons a t ih =>
    by_cases h : (a.1 == nm) = true
    · have hb : (a.1 != nm) = false := by simp [bne, h]
      simp only [List.filter_cons, List.countP_cons, h, hb, List.length_cons,
        if_true, if_false, Bool.false_eq_true]
      omega
    · have h' : (a.1 == nm) = false := by simpa using h
      have hb : (a.1 != nm) = true := by simp [bne, h']
      simp only [List.filter_cons, List.countP_cons, h', hb, List.length_cons,
        if_true, if_false, Bool.false_eq_true]
      omega

theorem pyStrip_eq_nil_of_all_space (s : List Char)
    (h : s.all isPySpace = true) : pyStrip s = [] := by
  unfold pyStrip
  have h1 : s.dropWhile isPySpace = [] := by
    rw [List.dropWhile_eq_nil_iff]
    intro x hx
    exact (List.all_eq_true.mp h) x hx
  simp [h1]

theorem finishName_ok_name_ne_empty (rest : List Char)
    (sp : List (String × String)) (ex : List String) (spec : PackageSpec)
    (h : finishName rest sp ex = Except.ok spec) : spec.name ≠ "" := by
  unfold finishName at h
  split at h
  · exact absurd h (by simp)
  · rename_i hcond
    rw [Bool.or_eq_true, not_or] at hcond
    obtain ⟨hne, _⟩ := hcond
    cases h
    intro hcontra
    have : pyStrip rest = [] := by
      have := congrArg String.toList hcontra
      simpa using this
    simp [this] at hne

/-! ## Claims C1-C7: the dependency-resolution module -/

/-- C1: parsing a name followed by comma-separated version specifiers is
claimed to return the name with all (operator, version) pairs; the code
instead raises `ValueError` on every such string because
`VERSION_SPECIFIER_RE` is `^`-anchored and the string starts with the
package name, so `re.search` never finds a specifier and the whole
string fails name validation. -/
theorem claim1_specifier_requirement_rejected :
    parse_requirement "requests>=2.0,<3.0" =
      Except.error "Invalid package name: requests>=2.0,<3.0" ∧
    parse_requirement "pkg>=1.0,<2.0" =
      Except.error "Invalid package name: pkg>=1.0,<2.0" :=
  ⟨rfl, rfl⟩

/-- C2: a bracketed extras list is claimed to be extracted at any
position; `EXTRA_RE` is `^`-anchored, so `"pkg[security]==1.2.3"` raises
`ValueError` while a bracket at the very start of the string is the one
position where extras are extracted. -/
theorem claim2_extras_only_extracted_at_start :
    parse_requirement "pkg[security]==1.2.3" =
      Except.error "Invalid package name: pkg[security]==1.2.3" ∧
    parse_requirement "[security]pkg" =
      Except.ok ⟨"pkg", [], ["security"]⟩ :=
  ⟨rfl, rfl⟩

/-- C3: `get_installed_packages` is claimed to return a lower-cased
name-to-version map and to let no exception escape; the module never
imports `json`, so every execution — whatever the subprocess outcome and
whatever `json.loads` would produce — raises `NameError` for the name
`json` out of the function. -/
theorem claim3_get_installed_packages_raises_nameError
    (pipList : RunResult)
    (jsonLoads : String → Except Unit (List (String × String))) :
    get_installed_packages pipList jsonLoads =
      Except.error (PyExc.nameError "json") := by
  have hj : dependenciesHasGlobal "json" = false := rfl
  unfold get_installed_packages runChecked
  by_cases hc : pipList.returncode ≠ 0 <;> simp [hc, hj]

/-- C4: the temporary requirements file and venv directory are claimed
to be gone after every conflict check; on the path where venv creation
and the install both succeed, the cleanup line `shutil.rmtree(venv_dir)`
raises `NameError` (the module never imports `shutil`), the handler hits
the same `NameError` again, and the check ends with the venv directory
still on disk. -/
theorem claim4_temp_venv_leaks
    (g : Except PyExc (List (String × String))) :
    (check_conflicts_run ⟨⟨0, "", ""⟩, true, ⟨0, "", ""⟩⟩ g).1 =
      Except.error (PyExc.nameError "shutil") ∧
    (check_conflicts_run ⟨⟨0, "", ""⟩, true, ⟨0, "", ""⟩⟩ g).2.reqFileExists = false ∧
    (check_conflicts_run ⟨⟨0, "", ""⟩, true, ⟨0, "", ""⟩⟩ g).2.venvDirExists = true :=
  ⟨rfl, rfl, rfl⟩

/-- C5: `check_conflicts` returns no conflicts when resolution returns
normally; when resolution raises `ValueError`, it returns the single
`(package, "multiple", message)` tuple exactly when the error text
matches the one recognized conflict phrasing, and the empty list for
every other failure text. -/
theorem claim5_check_conflicts_classification :
    (∀ m, check_conflicts (Except.ok m) = []) ∧
    (∀ msg pkg, findConflictPackage msg.toList = some pkg →
      check_conflicts (Except.error msg) =
        [(pkg, "multiple", "Version conflict for " ++ pkg)]) ∧
    (∀ msg, findConflictPackage msg.toList = none →
      check_conflicts (Except.error msg) = []) := by
  refine ⟨fun m => rfl, fun msg pkg h => ?_, fun msg h => ?_⟩ <;>
  · have h2 : findConflictPackage msg.data = _ := h
    simp [check_conflicts, h2]

/-- Witness for C5 at two concrete failure texts: one with the
recognized phrasing and one without. -/
theorem claim5_witness :
    check_conflicts (Except.error
      "ERROR: Cannot install pkgA because these package versions have conflicting dependencies") =
      [("pkgA", "multiple", "Version conflict for pkgA")] ∧
    check_conflicts (Except.error "ResolutionImpossible: see the docs") = [] :=
  ⟨claim5_check_conflicts_classification.2.1 _ "pkgA" (by decide),
   claim5_check_conflicts_classification.2.2 _ (by decide)⟩

/-- C6: round-tripping `parse_requirement` with `PackageSpec.__str__` is
claimed for strings of the form `name[extras]op1ver1,op2ver2`; the
serializer does produce exactly that shape, but `parse_requirement`
raises `ValueError` on every string of that shape (anchored regexes, as
in C1/C2), so no such round trip exists. -/
theorem claim6_roundtrip_has_no_parse :
    PackageSpec.toStr ⟨"name", [(">=", "1.0"), ("<", "2.0")], ["extra1", "extra2"]⟩ =
      "name[extra1,extra2]>=1.0,<2.0" ∧
    parse_requirement "name[extra1,extra2]>=1.0,<2.0" =
      Except.error "Invalid package name: name[extra1,extra2]>=1.0,<2.0" :=
  ⟨rfl, rfl⟩

/-- C7: an empty or whitespace-only requirement raises the validation
error, and no successful parse ever carries an empty name. -/
theorem claim7_empty_requirement_rejected :
    (∀ s : String, s.toList.all isPySpace = true →
      parse_requirement s = Except.error "Empty requirement string") ∧
    (∀ (s : String) (spec : PackageSpec),
      parse_requirement s = Except.ok spec → spec.name ≠ "") := by
  constructor
  · intro s hs
    have h0 : pyStrip s.data = [] := pyStrip_eq_nil_of_all_space _ hs
    simp [parse_requirement, h0]
  · intro s spec h
    simp only [parse_requirement] at h
    split at h
    · simp at h
    · exact finishName_ok_name_ne_empty _ _ _ _ h

/-- Witness for C7 at the whitespace-only string and at a concrete
successful parse. -/
theorem claim7_witness :
    parse_requirement "   " = Except.error "Empty requirement string" ∧
    (PackageSpec.mk "requests" [] []).name ≠ "" :=
  ⟨claim7_empty_requirement_rejected.1 "   " (by decide),
   claim7_empty_requirement_rejected.2 "requests" ⟨"requests", [], []⟩ rfl⟩

/-! ## Claims C8-C10: the repository manager -/

theorem dictContains_dictSet_same (st : RepoDict) (k : String)
    (v : PackageRepository) : dictContains (dictSet st k v) k = true := by
  unfold dictSet
  by_cases hc : dictContains st k = true
  · rw [if_pos hc]
    rcases List.any_eq_true.mp hc with ⟨p, hp, hpk⟩
    apply List.any_eq_true.mpr
    refine ⟨_, List.mem_map_of_mem _ hp, ?_⟩
    simp only [hpk, if_pos]
    simp
  · rw [if_neg hc]
    apply List.any_eq_true.mpr
    exact ⟨(k, v), List.mem_append_right _ (List.mem_singleton_self _), by simp⟩

theorem dictContains_dictSet_preserved (st : RepoDict) (k k' : String)
    (v : PackageRepository) (h : dictContains st k' = true) :
    dictContains (dictSet st k v) k' = true := by
  rcases List.any_eq_true.mp h with ⟨p, hp, hpk⟩
  have hk' : p.1 = k' := by simpa using hpk
  unfold dictSet
  by_cases hc : dictContains st k = true
  · rw [if_pos hc]
    apply List.any_eq_true.mpr
    refine ⟨_, List.mem_map_of_mem _ hp, ?_⟩
    by_cases hpke : (p.1 == k) = true
    · have hk : k = p.1 := (by simpa using hpke : p.1 = k).symm
      simp only [hpke, if_pos]
      simp [hk, hk']
    · simp only [hpke, Bool.false_eq_true, if_false]
      exact hpk
  · rw [if_neg hc]
    apply List.any_eq_true.mpr
    exact ⟨p, List.mem_append_left _ hp, hpk⟩

/-- C8: for a present name, `set_default_repository` returns `True`,
exactly one repository ends with `is_default = true`, and it is the
named one — whatever flags were set before the call (the code clears
every flag before setting the new one). -/
theorem claim8_set_default_unique (st : RepoDict) (nm : String)
    (hnd : (repoKeys st).Nodup) (hmem : dictContains st nm = true) :
    (set_default_repository st nm).1 = true ∧
    (set_default_repository st nm).2.countP (fun p => p.2.is_default) = 1 ∧
    (∀ p ∈ (set_default_repository st nm).2,
      p.2.is_default = true ↔ p.1 = nm) := by
  have hres : (set_default_repository st nm).2 =
      st.map (fun p => (p.1, { p.2 with is_default := p.1 == nm })) := by
    simp only [set_default_repository, hmem, Bool.not_true, Bool.false_eq_true,
      if_false, List.map_map]
    apply List.map_congr_left
    intro p _
    by_cases h : (p.1 == nm) = true <;> simp [Function.comp, h]
  refine ⟨by simp [set_default_repository, hmem], ?_, ?_⟩
  · rw [hres, List.countP_map]
    exact countP_key_eq_one st nm hnd hmem
  · intro p hp
    rw [hres] at hp
    rcases List.mem_map.mp hp with ⟨q, _, rfl⟩
    simp

/-- Witness for C8: a collection in which both repositories carry the
default flag; setting `"corp"` as default succeeds and leaves it as the
single default. -/
theorem claim8_witness :
    (set_default_repository
      [("pypi", ⟨"pypi", "https://pypi.org/simple", none, none, true⟩),
       ("corp", ⟨"corp", "https://corp.example/simple", none, none, true⟩)]
      "corp").1 = true ∧
    (set_default_repository
      [("pypi", ⟨"pypi", "https://pypi.org/simple", none, none, true⟩),
       ("corp", ⟨"corp", "https://corp.example/simple", none, none, true⟩)]
      "corp").2.countP (fun p => p.2.is_default) = 1 ∧
    (∀ p ∈ (set_default_repository
      [("pypi", ⟨"pypi", "https://pypi.org/simple", none, none, true⟩),
       ("corp", ⟨"corp", "https://corp.example/simple", none, none, true⟩)]
      "corp").2, p.2.is_default = true ↔ p.1 = "corp") :=
  claim8_set_default_unique
    [("pypi", ⟨"pypi", "https://pypi.org/simple", none, none, true⟩),
     ("corp", ⟨"corp", "https://corp.example/simple", none, none, true⟩)]
    "corp" (by decide) (by decide)

/-- C9: removing `"pypi"` is rejected with the collection unchanged;
removing any other present name returns `True` and deletes exactly that
entry (membership is preserved for every other entry and the length
drops by one). -/
theorem claim9_remove_pypi_rejected (st : RepoDict) (nm : String)
    (hnd : (repoKeys st).Nodup) :
    remove_repository st "pypi" = (false, st) ∧
    (dictContains st nm = true → nm ≠ "pypi" →
      (remove_repository st nm).1 = true ∧
      (∀ p, p ∈ (remove_repository st nm).2 ↔ p ∈ st ∧ p.1 ≠ nm) ∧
      (remove_repository st nm).2.length + 1 = st.length) := by
  refine ⟨by simp [remove_repository], ?_⟩
  intro hmem hne
  have hbne : (nm != "pypi") = true := by simp [bne_iff_ne, hne]
  have hcond : (dictContains st nm && (nm != "pypi")) = true := by
    simp [hmem, hbne]
  have h2 : (remove_repository st nm).2 = st.filter (fun p => p.1 != nm) := by
    simp [remove_repository, hcond, dictDelete]
  refine ⟨by simp [remove_repository, hcond], ?_, ?_⟩
  · intro p
    rw [h2]
    simp [List.mem_filter, bne_iff_ne]
  · have h1 := filter_length_add_countP st nm
    rw [countP_key_eq_one st nm hnd hmem] at h1
    rw [h2]
    omega

/-- Witness for C9: a two-entry collection; removing `"pypi"` is
rejected, removing `"corp"` succeeds and shrinks the collection by one. -/
theorem claim9_witness :
    remove_repository
      [("pypi", ⟨"pypi", "https://pypi.org/simple", none, none, true⟩),
       ("corp", ⟨"corp", "https://corp.example/simple", none, none, false⟩)]
      "pypi" =
      (false,
       [("pypi", ⟨"pypi", "https://pypi.org/simple", none, none, true⟩),
        ("corp", ⟨"corp", "https://corp.example/simple", none, none, false⟩)]) ∧
    (remove_repository
      [("pypi", ⟨"pypi", "https://pypi.org/simple", none, none, true⟩),
       ("corp", ⟨"corp", "https://corp.example/simple", none, none, false⟩)]
      "corp").1 = true ∧
    (remove_repository
      [("pypi", ⟨"pypi", "https://pypi.org/simple", none, none, true⟩),
       ("corp", ⟨"corp", "https://corp.example/simple", none, none, false⟩)]
      "corp").2.length + 1 =
      ([("pypi", (⟨"pypi", "https://pypi.org/simple", none, none, true⟩ : PackageRepository)),
        ("corp", ⟨"corp", "https://corp.example/simple", none, none, false⟩)] : RepoDict).length :=
  ⟨(claim9_remove_pypi_rejected
      [("pypi", ⟨"pypi", "https://pypi.org/simple", none, none, true⟩),
       ("corp", ⟨"corp", "https://corp.example/simple", none, none, false⟩)]
      "corp" (by decide)).1,
   ((claim9_remove_pypi_rejected
      [("pypi", ⟨"pypi", "https://pypi.org/simple", none, none, true⟩),
       ("corp", ⟨"corp", "https://corp.example/simple", none, none, false⟩)]
      "corp" (by decide)).2 (by decide) (by decide)).1,
   ((claim9_remove_pypi_rejected
      [("pypi", ⟨"pypi", "https://pypi.org/simple", none, none, true⟩),
       ("corp", ⟨"corp", "https://corp.example/simple", none, none, false⟩)]
      "corp" (by decide)).2 (by decide) (by decide)).2.2⟩

/-- C10: after initialization a `"pypi"` key is always present (it is
recreated during load when missing); `add_repository`,
`remove_repository` and `set_default_repository` all preserve its
presence; and `get_default_repository` never returns `None`: with no
flagged repository it falls back to the `"pypi"` record. -/
theorem claim10_pypi_always_present :
    (∀ loaded, dictContains (initRepositories loaded) "pypi" = true) ∧
    (∀ st (repo : PackageRepository), dictContains st "pypi" = true →
      dictContains (add_repository st repo) "pypi" = true) ∧
    (∀ st nm, dictContains st "pypi" = true →
      dictContains (remove_repository st nm).2 "pypi" = true) ∧
    (∀ st nm, dictContains st "pypi" = true →
      dictContains (set_default_repository st nm).2 "pypi" = true) ∧
    (∀ st, dictContains st "pypi" = true →
      get_default_repository st ≠ none) ∧
    (∀ st, dictContains st "pypi" = true →
      (∀ p ∈ st, p.2.is_default = false) →
      get_default_repository st = dictGet st "pypi") := by
  refine ⟨?_, ?_, ?_, ?_, ?_, ?_⟩
  · intro loaded
    cases loaded with
    | none => decide
    | some m =>
      simp only [initRepositories]
      by_cases h : dictContains m "pypi" = true
      · rw [if_pos h]; exact h
      · rw [if_neg h]
        exact dictContains_dictSet_same m "pypi" _
  · intro st repo h
    exact dictContains_dictSet_preserved st repo.name "pypi" repo h
  · intro st nm hmem
    unfold remove_repository
    by_cases hc : (dictContains st nm && (nm != "pypi")) = true
    · rw [if_pos hc]
      have hc2 := hc
      simp only [Bool.and_eq_true] at hc2
      have hnep : nm ≠ "pypi" := bne_iff_ne.mp hc2.2
      rcases List.any_eq_true.mp hmem with ⟨p, hp, hpk⟩
      have hk : p.1 = "pypi" := by simpa using hpk
      apply List.any_eq_true.mpr
      refine ⟨p, ?_, hpk⟩
      apply List.mem_filter.mpr
      refine ⟨hp, ?_⟩
      simp [bne_iff_ne, hk]
      exact fun hcontra => hnep hcontra.symm
    · rw [if_neg hc]
      exact hmem
  · intro st nm hmem
    unfold set_default_repository
    by_cases hc : dictContains st nm = true
    · simp only [hc, Bool.not_true, Bool.false_eq_true, if_false, List.map_map]
      rcases List.any_eq_true.mp hmem with ⟨p, hp, hpk⟩
      apply List.any_eq_true.mpr
      refine ⟨_, List.mem_map_of_mem _ hp, ?_⟩
      by_cases hq : (p.1 == nm) = true <;> simp [Function.comp, hq] <;>
        simpa using hpk
    · simp only [hc, Bool.not_false, if_true]
      exact hmem
  · intro st hmem
    unfold get_default_repository
    cases hf : List.find? (fun p => p.2.is_default) st with
    | some p => simp
    | none =>
      unfold dictGet
      have hex : ∃ x ∈ st, (x.1 == "pypi") = true := List.any_eq_true.mp hmem
      have hs := List.find?_isSome.mpr hex
      cases hfind : List.find? (fun p => p.1 == "pypi") st with
      | none => rw [hfind] at hs; simp at hs
      | some q => simp [hfind]
  · intro st hmem hall
    unfold get_default_repository
    have hf : List.find? (fun p => p.2.is_default) st = none := by
      rw [List.find?_eq_none]
      intro x hx
      simp [hall x hx]
    rw [hf]

/-- Witness for C10: initialization from a missing configuration file
creates `"pypi"`; removal of another name preserves it; and the default
lookup is non-`None` on a collection whose only repository is an
unflagged `"pypi"`. -/
theorem claim10_witness :
    dictContains (initRepositories none) "pypi" = true ∧
    dictContains (remove_repository
      [("pypi", ⟨"pypi", "https://pypi.org/simple", none, none, true⟩),
       ("corp", ⟨"corp", "https://corp.example/simple", none, none, false⟩)]
      "corp").2 "pypi" = true ∧
    get_default_repository
      [("pypi", ⟨"pypi", "https://pypi.org/simple", none, none, false⟩)] ≠ none :=
  ⟨claim10_pypi_always_present.1 none,
   claim10_pypi_always_present.2.2.1
     [("pypi", ⟨"pypi", "https://pypi.org/simple", none, none, true⟩),
      ("corp", ⟨"corp", "https://corp.example/simple", none, none, false⟩)]
     "corp" (by decide),
   claim10_pypi_always_present.2.2.2.2.1
     [("pypi", ⟨"pypi", "https://pypi.org/simple", none, none, false⟩)]
     (by decide)⟩

end Pack
